import Mathlib

set_option maxRecDepth 100000

/-!
Verification of the statistical testing engine of the insurance risk
analytics repository, centred on the file
src/preprocessing/ABTester.py.

Modelling conventions:
* a dataset row carries the two required financial columns
  (TotalPremium, TotalClaims) as exact rationals, an optional supplied
  ClaimCount column (meaningful only when the dataset-level flag
  hasClaimCount is set, mirroring the pandas column-presence check),
  the categorical attributes as a string association list and extra
  numeric covariate columns as an association list of optional
  rationals (none models a null cell);
* floating point NaN values produced by pandas and scipy on empty
  samples are modelled as none in Option;
* external scipy routines (Student-t based p-values, chi-square and
  Kruskal or ANOVA statistics, the normal CDF) are irrational-valued
  library calls and are passed in as function parameters, while every
  branch decision, data selection, table construction and NaN
  production made by the repository code itself is modelled exactly.
-/

/-- A raw input row: the required financial columns, the optionally
supplied ClaimCount value, the categorical attributes and the numeric
covariate columns. -/
structure RawRow where
  totalPremium : ℚ
  totalClaims : ℚ
  claimCount : ℤ
  attrs : List (String × String)
  nums : List (String × Option ℚ)
deriving DecidableEq

/-- A raw dataset: the rows plus the pandas-level fact of whether the
ClaimCount column is present (ABTester checks membership of the
column name in df.columns). -/
structure RawDF where
  hasClaimCount : Bool
  rows : List RawRow
deriving DecidableEq

/-- An enriched row, as produced by ABTester.__init__: the raw fields
plus HadClaim, ClaimCount, AvgClaimSeverity (none models the NaN
written by np.where when ClaimCount is not positive) and Margin. -/
structure ERow where
  totalPremium : ℚ
  totalClaims : ℚ
  hadClaim : ℤ
  claimCount : ℤ
  avgClaimSeverity : Option ℚ
  margin : ℚ
  attrs : List (String × String)
  nums : List (String × Option ℚ)
deriving DecidableEq

/-- Association-list lookup with decidable string keys. -/
def lookupStr {α : Type} (c : String) : List (String × α) → Option α
  | [] => none
  | (k, v) :: l => if k = c then some v else lookupStr c l

/-- Categorical column access on an enriched row (cleaned data is
assumed to have no missing categorical cells). -/
def ERow.cat (r : ERow) (c : String) : String :=
  (lookupStr c r.attrs).getD ""

/-- Numeric covariate column access on an enriched row; none models a
null cell or an absent column. -/
def ERow.num (r : ERow) (c : String) : Option ℚ :=
  (lookupStr c r.nums).getD none

/-- Per-row metric derivation from ABTester.__init__ (lines 17 to 24):
HadClaim = (TotalClaims > 0) as an integer; ClaimCount is the supplied
column when present, otherwise the HadClaim proxy; AvgClaimSeverity is
TotalClaims / ClaimCount when ClaimCount > 0 and NaN (none) otherwise;
Margin = TotalPremium - TotalClaims. -/
def deriveRow (hasCC : Bool) (r : RawRow) : ERow :=
  let hadClaim : ℤ := if 0 < r.totalClaims then 1 else 0
  let cc : ℤ := if hasCC then r.claimCount else hadClaim
  { totalPremium := r.totalPremium
    totalClaims := r.totalClaims
    hadClaim := hadClaim
    claimCount := cc
    avgClaimSeverity := if 0 < cc then some (r.totalClaims / (cc : ℚ)) else none
    margin := r.totalPremium - r.totalClaims
    attrs := r.attrs
    nums := r.nums }

/-- Metric derivation over a whole dataset (the body of
ABTester.__init__). -/
def derive (d : RawDF) : List ERow :=
  d.rows.map (deriveRow d.hasClaimCount)

/-- Forgetting the derived fields: the enriched dataset, read again as
a raw dataset, keeps the financial columns, the (now present)
ClaimCount column, the attributes and the numeric columns. -/
def toRaw (e : ERow) : RawRow :=
  { totalPremium := e.totalPremium
    totalClaims := e.totalClaims
    claimCount := e.claimCount
    attrs := e.attrs
    nums := e.nums }

/-- The enriched dataset seen as input for a second derivation run;
the ClaimCount column is present this time. -/
def reDerive (d : RawDF) : RawDF :=
  { hasClaimCount := true, rows := (derive d).map toRaw }

/-- Concrete raw row used by witnesses: group value g for attribute
"Province", premium 100, the given claims value, no supplied count. -/
def mkRow (g : String) (tc : ℚ) : RawRow :=
  { totalPremium := 100, totalClaims := tc, claimCount := 0,
    attrs := [("Province", g)], nums := [] }

/-- Raw row with a supplied ClaimCount column value. -/
def mkRowCC (g : String) (tc : ℚ) (cc : ℤ) : RawRow :=
  { totalPremium := 100, totalClaims := tc, claimCount := cc,
    attrs := [("Province", g)], nums := [] }

/-- Distinct values of a list of keys, as pandas groupby produces one
group per distinct key (order is irrelevant to any claim proved
here). -/
def uniqueKeys (l : List String) : List String :=
  l.dedup

/-- The severity partition built in anova_severity_by_group (line 34):
groupby on the attribute, then dropna on AvgClaimSeverity inside each
group. A group whose severities are all null stays in the partition as
an empty sample. -/
def severityGroups (df : List ERow) (gcol : String) : List (List ℚ) :=
  (uniqueKeys (df.map fun r => r.cat gcol)).map fun v =>
    (df.filter fun r => decide (r.cat gcol = v)).filterMap fun r => r.avgClaimSeverity

/-- The margin partition built in anova_margin_by_group (line 43):
groupby on the attribute, values taken without any dropna (Margin is
always defined on cleaned data). -/
def marginGroups (df : List ERow) (gcol : String) : List (List ℚ) :=
  (uniqueKeys (df.map fun r => r.cat gcol)).map fun v =>
    (df.filter fun r => decide (r.cat gcol = v)).map fun r => r.margin

/-- Result of a multi-group severity or margin test: the grouping
attribute, the recorded test kind, the statistic and the p-value (the
source stores the ANOVA statistic under the key F and the Kruskal one
under stat; one statistic field suffices here). -/
structure MGResult where
  group : String
  test : String
  stat : ℚ
  p_value : ℚ
deriving DecidableEq

/-- anova_severity_by_group (lines 33 to 40). The scipy routines
stats.kruskal and stats.f_oneway are external library calls taken as
parameters kfn and afn from partitions to (statistic, p-value); the
branch on minimum group size and the recorded test kind are the
repository code. -/
def anova_severity_by_group (kfn afn : List (List ℚ) → ℚ × ℚ)
    (df : List ERow) (gcol : String) : MGResult :=
  let groups := severityGroups df gcol
  if groups.any fun g => decide (g.length < 20) then
    { group := gcol, test := "kruskal_severity",
      stat := (kfn groups).1, p_value := (kfn groups).2 }
  else
    { group := gcol, test := "anova_severity",
      stat := (afn groups).1, p_value := (afn groups).2 }

/-- anova_margin_by_group (lines 42 to 48), same shape as the severity
variant but on the margin partition. -/
def anova_margin_by_group (kfn afn : List (List ℚ) → ℚ × ℚ)
    (df : List ERow) (gcol : String) : MGResult :=
  let groups := marginGroups df gcol
  if groups.any fun g => decide (g.length < 20) then
    { group := gcol, test := "kruskal_margin",
      stat := (kfn groups).1, p_value := (kfn groups).2 }
  else
    { group := gcol, test := "anova_margin",
      stat := (afn groups).1, p_value := (afn groups).2 }

/-- A raw dataset whose group Y has only records without claims, so
its severity sample is empty after null filtering. -/
def rawAllNullY : RawDF :=
  { hasClaimCount := false, rows := [mkRow "X" 10, mkRow "Y" 0, mkRow "Y" 0] }

/-- The enriched form of rawAllNullY. -/
def dfAllNullY : List ERow := derive rawAllNullY

/-- A statistic parameter that detects whether an empty sample was
handed to the statistical test. -/
def kfnDetect : List (List ℚ) → ℚ × ℚ :=
  fun gs => (if [] ∈ gs then 1 else 0, 0)

/-- Result of the pairwise Welch comparison
(ttest_metric_between_groups, lines 51 to 58). Pandas and scipy return
NaN means and a NaN statistic and p-value on an empty sample; NaN is
modelled as none. -/
structure PairResult where
  group : String
  metric : String
  A : String
  B : String
  mean_A : Option ℚ
  mean_B : Option ℚ
  t_stat : Option ℚ
  p_value : Option ℚ
deriving DecidableEq

/-- Pandas Series.mean: NaN (none) on an empty series, the arithmetic
mean otherwise. -/
def pmean (l : List ℚ) : Option ℚ :=
  if l = [] then none else some (l.sum / (l.length : ℚ))

/-- Model of scipy.stats.ttest_ind with equal_var set to False (the
Welch test). On an empty sample the library does not raise: the
statistic and the p-value are NaN, modelled as none. The
non-degenerate branch involves the Student-t distribution and is
abstracted as the parameter tf. -/
def ttest_ind (tf : List ℚ → List ℚ → Option ℚ × Option ℚ)
    (x y : List ℚ) : Option ℚ × Option ℚ :=
  if x = [] ∨ y = [] then (none, none) else tf x y

/-- ttest_metric_between_groups (lines 51 to 58): select the two
groups, drop nulls of the metric, run the Welch test, and return the
result record unconditionally (the source has no error path and
defines no error classes). -/
def ttest_metric_between_groups (tf : List ℚ → List ℚ → Option ℚ × Option ℚ)
    (df : List ERow) (gcol : String) (metric : ERow → Option ℚ)
    (metricName a b : String) : PairResult :=
  let aVals := (df.filter fun r => decide (r.cat gcol = a)).filterMap metric
  let bVals := (df.filter fun r => decide (r.cat gcol = b)).filterMap metric
  let tp := ttest_ind tf aVals bVals
  { group := gcol, metric := metricName, A := a, B := b,
    mean_A := pmean aVals, mean_B := pmean bVals,
    t_stat := tp.1, p_value := tp.2 }

/-- A Student-t parameter that always reports a defined statistic and
p-value, so any NaN in a result provably comes from the repository
side of the computation, not from the parameter. -/
def tfConst : List ℚ → List ℚ → Option ℚ × Option ℚ :=
  fun _ _ => (some 1, some 1)

/-- The enriched two-row dataset with province X having one claim and
province Y having none, so the Y severity sample is empty after
dropping nulls. -/
def dfPairCex : List ERow :=
  derive { hasClaimCount := false, rows := [mkRow "X" 10, mkRow "Y" 0] }

/-- Decision record produced by interpret_result (lines 116 to 123). -/
structure InterpResult where
  test : String
  p_value : Option ℚ
  decision : String
deriving DecidableEq

/-- interpret_result (lines 116 to 123): reads the p-value entry of a
result (none when the entry is absent, and a NaN p-value compares as
not less than alpha exactly like an absent one), decides Reject H0
when the p-value is present and strictly below alpha, and always
returns a decision record: the source defines no MissingStatisticError
and has no error path. -/
def interpret_result (testName : String) (p : Option ℚ) (alpha : ℚ) : InterpResult :=
  let reject : Bool :=
    match p with
    | some q => decide (q < alpha)
    | none => false
  { test := testName, p_value := p,
    decision := if reject then "Reject H0" else "Fail to reject H0" }

/-- The distinct HadClaim values present in the dataset: the column
labels of the frequency contingency table built by pd.crosstab. -/
def hadVals (df : List ERow) : List ℤ :=
  (df.map fun r => r.hadClaim).dedup

/-- The contingency table built by chi2_frequency_by_group (line 28):
pd.crosstab of the attribute column against the HadClaim column, one
row per distinct attribute value, one cell per distinct HadClaim
value, each cell counting the records with that (value, HadClaim)
combination. -/
def freqTable (df : List ERow) (gcol : String) : List (String × List ℕ) :=
  (uniqueKeys (df.map fun r => r.cat gcol)).map fun v =>
    (v, (hadVals df).map fun h =>
      (df.filter fun r => decide (r.cat gcol = v ∧ r.hadClaim = h)).length)

/-- Result of chi2_frequency_by_group (lines 27 to 31): the attribute,
the test kind tag, the chi-square statistic, degrees of freedom and
p-value as produced by the external scipy chi2_contingency call
(parameter), and the contingency table itself. -/
structure FreqResult where
  group : String
  test : String
  chi2 : ℚ
  dof : ℤ
  p_value : ℚ
  table : List (String × List ℕ)
deriving DecidableEq

/-- chi2_frequency_by_group (lines 27 to 31), with the scipy
chi2_contingency routine abstracted as the parameter cfn from tables
to (chi-square, p-value, degrees of freedom). -/
def chi2_frequency_by_group (cfn : List (String × List ℕ) → ℚ × ℚ × ℤ)
    (df : List ERow) (gcol : String) : FreqResult :=
  let ct := freqTable df gcol
  { group := gcol, test := "chi2_frequency",
    chi2 := (cfn ct).1, dof := (cfn ct).2.2, p_value := (cfn ct).2.1,
    table := ct }

/-- The four-record scenario dataset of the specification: provinces
X, X, Y, Y with claims 0, 50, 0, 0. -/
def dfScenario4 : List ERow :=
  derive { hasClaimCount := false,
           rows := [mkRow "X" 0, mkRow "X" 50, mkRow "Y" 0, mkRow "Y" 0] }

/-- A chi-square parameter used only to instantiate witnesses. -/
def cfnConst : List (String × List ℕ) → ℚ × ℚ × ℤ :=
  fun _ => (0, 1, 1)

/-- Result of ztest_proportions (lines 60 to 71): group identifiers,
success counts and totals of the binary claim indicator, both rates,
the pooled proportion and the squared standard error, all exact
rationals. -/
structure ZResult where
  group : String
  metric : String
  A : String
  B : String
  a_succ : ℤ
  a_total : ℤ
  b_succ : ℤ
  b_total : ℤ
  rate_A : ℚ
  rate_B : ℚ
  p_pool : ℚ
  se_sq : ℚ
deriving DecidableEq

/-- ztest_proportions (lines 60 to 71): success counts are sums of the
HadClaim indicator over each selected group, totals are the group
sizes, the pooled proportion is the combined success rate, and the
squared standard error is pooled * (1 - pooled) * (1/nA + 1/nB). -/
def ztest_proportions (df : List ERow) (gcol a b : String) : ZResult :=
  let ar := df.filter fun r => decide (r.cat gcol = a)
  let br := df.filter fun r => decide (r.cat gcol = b)
  let aSucc : ℤ := (ar.map fun r => r.hadClaim).sum
  let aTotal : ℤ := (ar.length : ℤ)
  let bSucc : ℤ := (br.map fun r => r.hadClaim).sum
  let bTotal : ℤ := (br.length : ℤ)
  let pPool : ℚ := ((aSucc + bSucc : ℤ) : ℚ) / ((aTotal + bTotal : ℤ) : ℚ)
  { group := gcol, metric := "HadClaim", A := a, B := b,
    a_succ := aSucc, a_total := aTotal, b_succ := bSucc, b_total := bTotal,
    rate_A := (aSucc : ℚ) / (aTotal : ℚ), rate_B := (bSucc : ℚ) / (bTotal : ℚ),
    p_pool := pPool,
    se_sq := pPool * (1 - pPool) * (1 / (aTotal : ℚ) + 1 / (bTotal : ℚ)) }

/-- The z statistic of the pooled test (line 67): the rate difference
divided by the standard error, the real square root of the rational
squared standard error. The square root is irrational, so this value
lives in the reals and is not meant to be evaluated by reduction. -/
noncomputable def z_score (r : ZResult) : ℝ :=
  ((r.rate_A - r.rate_B : ℚ) : ℝ) / Real.sqrt ((r.se_sq : ℚ) : ℝ)

/-- The two-tailed p-value of the pooled test (line 68), with the
standard normal CDF passed as the parameter ncdf (an external scipy
routine). -/
noncomputable def z_pvalue (ncdf : ℝ → ℝ) (r : ZResult) : ℝ :=
  2 * (1 - ncdf |z_score r|)

/-- The 100-per-group reference scenario: group A has 10 records with
a claim and 90 without, group B has 20 with and 80 without. -/
def zScenario : RawDF :=
  { hasClaimCount := false,
    rows := List.replicate 10 (mkRow "A" 1) ++ List.replicate 90 (mkRow "A" 0)
        ++ List.replicate 20 (mkRow "B" 1) ++ List.replicate 80 (mkRow "B" 0) }

/-- Numeric covariate comparison record of the balance report. -/
structure NumCompare where
  mean_A : Option ℚ
  mean_B : Option ℚ
  t_stat : Option ℚ
  p_value : Option ℚ
deriving DecidableEq

/-- Categorical covariate comparison record of the balance report. -/
structure CatCompare where
  chi2 : ℚ
  p_value : ℚ
deriving DecidableEq

/-- The balance report: per-covariate comparison records, keyed by
covariate name. -/
structure BalanceReport where
  numeric : List (String × NumCompare)
  categorical : List (String × CatCompare)
deriving DecidableEq

/-- The rows selected by one group label, keeping their original
positional index: pandas filtering preserves the index labels of the
source frame. -/
def groupIdx (df : List ERow) (gcol v : String) : List (ℕ × ERow) :=
  df.enum.filter fun p => decide (p.2.cat gcol = v)

/-- One categorical column of an indexed selection, as an indexed list
of values. -/
def catColumn (s : List (ℕ × ERow)) (c : String) : List (ℕ × String) :=
  s.map fun p => (p.1, p.2.cat c)

/-- One numeric covariate column of an indexed selection with nulls
dropped. -/
def numColumn (s : List (ℕ × ERow)) (c : String) : List ℚ :=
  s.filterMap fun p => p.2.num c

/-- Index lookup in an indexed column. -/
def lookupIdx (i : ℕ) : List (ℕ × String) → Option String
  | [] => none
  | (k, v) :: l => if k = i then some v else lookupIdx i l

/-- The index-aligned value pairs underlying pd.crosstab applied to
two series: crosstab aligns its two arguments on their index and
drops every position where either side is missing, so only indices
present in both series contribute a pair. -/
def alignedPairs (s1 s2 : List (ℕ × String)) : List (String × String) :=
  s1.filterMap fun p => (lookupIdx p.1 s2).map fun w => (p.2, w)

/-- The contingency table of pd.crosstab on two series: the count of
every distinct index-aligned value pair. The table is empty exactly
when no index is shared. -/
def crosstab2 (s1 s2 : List (ℕ × String)) : List ((String × String) × ℕ) :=
  ((alignedPairs s1 s2).dedup).map fun q => (q, (alignedPairs s1 s2).count q)

/-- Packaging of a (chi-square, p-value) pair as a categorical
comparison record. -/
def mkCat (p : ℚ × ℚ) : CatCompare :=
  { chi2 := p.1, p_value := p.2 }

/-- balance_check (lines 74 to 91): Welch comparisons of the numeric
covariates (reported only when both filtered sides have more than 5
observations), and chi-square comparisons of the categorical
covariates on the index-aligned crosstab of the two selections
(reported only when that table is non-empty). The scipy
chi2_contingency call is the parameter chifn. -/
def balance_check (tf : List ℚ → List ℚ → Option ℚ × Option ℚ)
    (chifn : List ((String × String) × ℕ) → ℚ × ℚ)
    (df : List ERow) (gcol a b : String)
    (covariatesNum covariatesCat : List String) : BalanceReport :=
  let aDf := groupIdx df gcol a
  let bDf := groupIdx df gcol b
  { numeric := covariatesNum.filterMap fun c =>
      if 5 < (numColumn aDf c).length ∧ 5 < (numColumn bDf c).length then
        some (c,
          { mean_A := pmean (numColumn aDf c), mean_B := pmean (numColumn bDf c),
            t_stat := (ttest_ind tf (numColumn aDf c) (numColumn bDf c)).1,
            p_value := (ttest_ind tf (numColumn aDf c) (numColumn bDf c)).2 })
      else none,
    categorical := covariatesCat.filterMap fun c =>
      if crosstab2 (catColumn aDf c) (catColumn bDf c) = [] then none
      else
        some (c,
          { chi2 := (chifn (crosstab2 (catColumn aDf c) (catColumn bDf c))).1,
            p_value := (chifn (crosstab2 (catColumn aDf c) (catColumn bDf c))).2 }) }

/-- A balance-check row: gender M with a CoverCategory covariate
value. -/
def rowBal (cv : String) : RawRow :=
  { totalPremium := 100, totalClaims := 0, claimCount := 0,
    attrs := [("Gender", "M"), ("CoverCategory", cv)], nums := [] }

/-- Two-row dataset for the balance-check witness. -/
def dfBal : List ERow :=
  derive { hasClaimCount := false, rows := [rowBal "Own Damage", rowBal "Theft"] }

/-- A chi-square parameter used only to instantiate witnesses. -/
def chifnConst : List ((String × String) × ℕ) → ℚ × ℚ :=
  fun _ => (0, 1)

theorem deriveRow_margin (hasCC : Bool) (r : RawRow) :
    (deriveRow hasCC r).margin = r.totalPremium - r.totalClaims := rfl

/-- Re-deriving one already enriched row reproduces it. -/
theorem deriveRow_reDerive (hasCC : Bool) (r : RawRow) :
    deriveRow true (toRaw (deriveRow hasCC r)) = deriveRow hasCC r := rfl

/-- C6: in the enriched dataset, for a record whose ClaimCount is a
nonnegative integer, AvgClaimSeverity is null exactly when ClaimCount
is zero. -/
theorem claim6_severity_null_iff_no_claims (hasCC : Bool) (r : RawRow)
    (h : 0 ≤ (deriveRow hasCC r).claimCount) :
    (deriveRow hasCC r).avgClaimSeverity = none ↔
      (deriveRow hasCC r).claimCount = 0 := by
  simp only [deriveRow] at h ⊢
  constructor
  · intro hnone
    by_contra hne
    have hpos : 0 < (if hasCC then r.claimCount else if 0 < r.totalClaims then 1 else 0) := by
      omega
    rw [if_pos hpos] at hnone
    exact Option.some_ne_none _ hnone
  · intro hzero
    rw [if_neg (by omega)]

/-- C6 witness: a concrete record with a supplied positive ClaimCount. -/
theorem claim6_witness :
    0 ≤ (deriveRow true (mkRowCC "X" 30 3)).claimCount ∧
      ((deriveRow true (mkRowCC "X" 30 3)).avgClaimSeverity = none ↔
        (deriveRow true (mkRowCC "X" 30 3)).claimCount = 0) :=
  ⟨by decide, claim6_severity_null_iff_no_claims true (mkRowCC "X" 30 3) (by decide)⟩

/-- C9: metric derivation is idempotent: deriving again from the
already enriched dataset (where the ClaimCount column now exists)
reproduces every enriched row, hence the HadClaim, ClaimCount,
AvgClaimSeverity and Margin fields, exactly. -/
theorem claim9_derivation_idempotent (d : RawDF) :
    derive (reDerive d) = derive d := by
  simp only [reDerive, derive, List.map_map]
  apply List.map_congr_left
  intro r _
  exact deriveRow_reDerive d.hasClaimCount r

/-- C10: when the ClaimCount column is supplied, derivation keeps it
unchanged and computes AvgClaimSeverity as TotalClaims / ClaimCount
from the supplied count with no cross check; a record with zero
TotalClaims and a positive supplied ClaimCount gets HadClaim = 0
together with a non-null severity of zero. -/
theorem claim10_supplied_claimcount (r : RawRow) :
    (deriveRow true r).claimCount = r.claimCount ∧
    (0 < r.claimCount →
      (deriveRow true r).avgClaimSeverity = some (r.totalClaims / (r.claimCount : ℚ))) ∧
    (r.totalClaims = 0 → 0 < r.claimCount →
      (deriveRow true r).hadClaim = 0 ∧
        (deriveRow true r).avgClaimSeverity = some 0) := by
  refine ⟨rfl, ?_, ?_⟩
  · intro hpos
    simp only [deriveRow, if_pos hpos, if_pos trivial]
  · intro htc hpos
    constructor
    · simp only [deriveRow]
      rw [if_neg (by rw [htc]; exact lt_irrefl 0)]
    · simp only [deriveRow, if_pos trivial, if_pos hpos, htc, zero_div]

/-- C10 witness: TotalClaims = 0 with supplied ClaimCount = 3 yields
HadClaim 0 and severity some 0. -/
theorem claim10_witness :
    (0 < (mkRowCC "X" 0 3).claimCount →
      (deriveRow true (mkRowCC "X" 0 3)).avgClaimSeverity =
        some ((mkRowCC "X" 0 3).totalClaims / ((mkRowCC "X" 0 3).claimCount : ℚ))) ∧
    ((mkRowCC "X" 0 3).totalClaims = 0 → 0 < (mkRowCC "X" 0 3).claimCount →
      (deriveRow true (mkRowCC "X" 0 3)).hadClaim = 0 ∧
        (deriveRow true (mkRowCC "X" 0 3)).avgClaimSeverity = some 0) :=
  ⟨(claim10_supplied_claimcount (mkRowCC "X" 0 3)).2.1,
   (claim10_supplied_claimcount (mkRowCC "X" 0 3)).2.2⟩

/-- C1: the multi-group severity and margin tests pick the
Kruskal-Wallis variant exactly when some group of the partition has
fewer than 20 (non-null, for severity) observations, pick ANOVA
otherwise, and record the test kind used. -/
theorem claim1_test_selection (kfn afn : List (List ℚ) → ℚ × ℚ)
    (df : List ERow) (gcol : String) :
    ((anova_severity_by_group kfn afn df gcol).test = "kruskal_severity" ↔
      ∃ g ∈ severityGroups df gcol, g.length < 20) ∧
    ((anova_severity_by_group kfn afn df gcol).test = "anova_severity" ↔
      ¬ ∃ g ∈ severityGroups df gcol, g.length < 20) ∧
    ((anova_margin_by_group kfn afn df gcol).test = "kruskal_margin" ↔
      ∃ g ∈ marginGroups df gcol, g.length < 20) ∧
    ((anova_margin_by_group kfn afn df gcol).test = "anova_margin" ↔
      ¬ ∃ g ∈ marginGroups df gcol, g.length < 20) := by
  have hs : ((severityGroups df gcol).any fun g => decide (g.length < 20)) = true ↔
      ∃ g ∈ severityGroups df gcol, g.length < 20 := by
    simp [List.any_eq_true]
  have hm : ((marginGroups df gcol).any fun g => decide (g.length < 20)) = true ↔
      ∃ g ∈ marginGroups df gcol, g.length < 20 := by
    simp [List.any_eq_true]
  refine ⟨?_, ?_, ?_, ?_⟩
  · rw [← hs]
    unfold anova_severity_by_group
    by_cases h : ((severityGroups df gcol).any fun g => decide (g.length < 20)) = true
    · simp [h]
    · simp [h]
  · rw [← hs]
    unfold anova_severity_by_group
    by_cases h : ((severityGroups df gcol).any fun g => decide (g.length < 20)) = true
    · simp [h]
    · simp [h]
  · rw [← hm]
    unfold anova_margin_by_group
    by_cases h : ((marginGroups df gcol).any fun g => decide (g.length < 20)) = true
    · simp [h]
    · simp [h]
  · rw [← hm]
    unfold anova_margin_by_group
    by_cases h : ((marginGroups df gcol).any fun g => decide (g.length < 20)) = true
    · simp [h]
    · simp [h]

/-- C4 counterexample: on a dataset whose group Y has zero non-null
severity members, the empty group is not excluded: it stays in the
partition and is passed to the statistical test (the detecting
statistic sees the empty sample). -/
theorem claim4_counterexample :
    [] ∈ severityGroups dfAllNullY "Province" ∧
    (anova_severity_by_group kfnDetect kfnDetect dfAllNullY "Province").test =
      "kruskal_severity" ∧
    (anova_severity_by_group kfnDetect kfnDetect dfAllNullY "Province").stat = 1 := by
  refine ⟨by decide, by decide, by decide⟩

/-- C4 amended: groups with zero non-null severity members after null
filtering are retained, not excluded: the partition has exactly one
entry per distinct attribute value, and the (possibly empty) filtered
sample of every attribute value is an entry of the partition handed to
the statistical test. -/
theorem claim4_empty_groups_retained (df : List ERow) (gcol : String) :
    (severityGroups df gcol).length =
      (uniqueKeys (df.map fun r => r.cat gcol)).length ∧
    ∀ v ∈ uniqueKeys (df.map fun r => r.cat gcol),
      ((df.filter fun r => decide (r.cat gcol = v)).filterMap fun r =>
        r.avgClaimSeverity) ∈ severityGroups df gcol := by
  constructor
  · simp [severityGroups]
  · intro v hv
    exact List.mem_map_of_mem _ hv

/-- C2 counterexample: with the Y severity sample empty after dropping
nulls, ttest_metric_between_groups does not fail with
InsufficientDataError (no such error exists anywhere in the source and
the function has no error path): it returns a normal result whose
p-value is NaN, even though the Student-t parameter itself reports a
defined p-value. -/
theorem claim2_counterexample :
    ((dfPairCex.filter fun r => decide (r.cat "Province" = "Y")).filterMap
      fun r => r.avgClaimSeverity) = [] ∧
    (ttest_metric_between_groups tfConst dfPairCex "Province"
      (fun r => r.avgClaimSeverity) "AvgClaimSeverity" "X" "Y").p_value = none := by
  refine ⟨by decide, by decide⟩

/-- C2 amended: when either selected group is empty after dropping
nulls, the pairwise Welch comparison does not raise: it returns a
result whose t statistic and p-value are NaN (none), following the
scipy NaN propagation on empty samples. -/
theorem claim2_empty_group_nan (tf : List ℚ → List ℚ → Option ℚ × Option ℚ)
    (df : List ERow) (gcol : String) (metric : ERow → Option ℚ)
    (metricName a b : String)
    (h : ((df.filter fun r => decide (r.cat gcol = a)).filterMap metric) = [] ∨
         ((df.filter fun r => decide (r.cat gcol = b)).filterMap metric) = []) :
    (ttest_metric_between_groups tf df gcol metric metricName a b).p_value = none ∧
    (ttest_metric_between_groups tf df gcol metric metricName a b).t_stat = none := by
  simp only [ttest_metric_between_groups, ttest_ind]
  rw [if_pos h]
  exact ⟨rfl, rfl⟩

/-- C2 witness: the amended statement applied to the concrete dataset
whose Y group is empty after null filtering. -/
theorem claim2_witness :
    (ttest_metric_between_groups tfConst dfPairCex "Province"
      (fun r => r.avgClaimSeverity) "AvgClaimSeverity" "X" "Y").p_value = none ∧
    (ttest_metric_between_groups tfConst dfPairCex "Province"
      (fun r => r.avgClaimSeverity) "AvgClaimSeverity" "X" "Y").t_stat = none :=
  claim2_empty_group_nan tfConst dfPairCex "Province"
    (fun r => r.avgClaimSeverity) "AvgClaimSeverity" "X" "Y" (Or.inr (by decide))

/-- C3 counterexample: on a result carrying no p-value, interpretation
does not fail with MissingStatisticError (no such error exists in the
source): it returns a normal decision record with the fail-to-reject
decision and a null p-value. -/
theorem claim3_counterexample :
    interpret_result "province_severity" none (1/20) =
      { test := "province_severity", p_value := none,
        decision := "Fail to reject H0" } := rfl

/-- C3 amended: interpretation returns the decision Reject H0 exactly
when the p-value is present and strictly below alpha and Fail to
reject H0 otherwise; a result with no p-value yields the fail-to-
reject decision with a null p-value instead of an error. -/
theorem claim3_interpretation (testName : String) (p : Option ℚ) (alpha : ℚ) :
    ((interpret_result testName p alpha).decision = "Reject H0" ↔
      ∃ q, p = some q ∧ q < alpha) ∧
    ((interpret_result testName p alpha).decision = "Reject H0" ∨
      (interpret_result testName p alpha).decision = "Fail to reject H0") ∧
    (interpret_result testName p alpha).p_value = p ∧
    (interpret_result testName p alpha).test = testName := by
  refine ⟨?_, ?_, rfl, rfl⟩
  · cases p with
    | none => simp [interpret_result]
    | some q =>
      by_cases h : q < alpha
      · simp [interpret_result, h]
      · simp [interpret_result, h]
  · cases p with
    | none => right; rfl
    | some q =>
      by_cases h : q < alpha
      · left; simp [interpret_result, h]
      · right; simp [interpret_result, h]

theorem sum_map_const_zero {β : Type} (vs : List β) :
    (vs.map fun _ => (0 : ℕ)).sum = 0 := by
  induction vs with
  | nil => rfl
  | cons v vs ih => simp [ih]

theorem sum_map_add_nat {β : Type} (g h : β → ℕ) (vs : List β) :
    (vs.map fun v => g v + h v).sum = (vs.map g).sum + (vs.map h).sum := by
  induction vs with
  | nil => rfl
  | cons v vs ih => simp only [List.map_cons, List.sum_cons, ih]; omega

theorem sum_indicator_of_not_mem {β : Type} [DecidableEq β] (b : β) (vs : List β)
    (hb : b ∉ vs) :
    (vs.map fun v => if b = v then (1 : ℕ) else 0).sum = 0 := by
  induction vs with
  | nil => rfl
  | cons v vs ih =>
    simp only [List.mem_cons, not_or] at hb
    simp only [List.map_cons, List.sum_cons, if_neg hb.1, ih hb.2]

theorem sum_indicator_of_mem {β : Type} [DecidableEq β] (b : β) (vs : List β)
    (hn : vs.Nodup) (hb : b ∈ vs) :
    (vs.map fun v => if b = v then (1 : ℕ) else 0).sum = 1 := by
  induction vs with
  | nil => cases hb
  | cons v vs ih =>
    rcases List.mem_cons.mp hb with h | h
    · subst h
      have hnot : b ∉ vs := (List.nodup_cons.mp hn).1
      simp [sum_indicator_of_not_mem b vs hnot]
    · have hbv : b ≠ v := fun e => (List.nodup_cons.mp hn).1 (e ▸ h)
      simp only [List.map_cons, List.sum_cons, if_neg hbv,
        ih (List.nodup_cons.mp hn).2 h]

/-- Partition law: summing, over a duplicate-free list of values that
covers the image of f on l, the sizes of the fibres of f recovers the
size of l. -/
theorem sum_filter_lengths {α β : Type} [DecidableEq β] (f : α → β)
    (l : List α) (vs : List β) (hn : vs.Nodup) (hf : ∀ x ∈ l, f x ∈ vs) :
    (vs.map fun v => (l.filter fun x => decide (f x = v)).length).sum = l.length := by
  induction l with
  | nil => simp [sum_map_const_zero]
  | cons a l ih =>
    have h1 : ∀ v : β, ((a :: l).filter fun x => decide (f x = v)).length
        = (if f a = v then (1 : ℕ) else 0) + (l.filter fun x => decide (f x = v)).length := by
      intro v
      by_cases h : f a = v
      · simp [List.filter_cons, h, Nat.add_comm]
      · simp [List.filter_cons, h]
    simp only [h1]
    rw [sum_map_add_nat (fun v => if f a = v then (1 : ℕ) else 0)
      (fun v => (l.filter fun x => decide (f x = v)).length) vs]
    rw [sum_indicator_of_mem (f a) vs hn (hf a (List.mem_cons_self a l))]
    rw [ih fun x hx => hf x (List.mem_cons_of_mem a hx)]
    simp [Nat.add_comm]

theorem filter_decide_and {α : Type} (p q : α → Prop) [DecidablePred p]
    [DecidablePred q] (l : List α) :
    (l.filter fun x => decide (p x ∧ q x)) =
      ((l.filter fun x => decide (p x)).filter fun x => decide (q x)) := by
  induction l with
  | nil => rfl
  | cons a l ih =>
    by_cases hp : p a <;> by_cases hq : q a <;>
      simp [List.filter_cons, hp, hq, ih, Bool.and_comm]

/-- Row-sum law for one fibre of the contingency table. -/
theorem freq_row_sum (df : List ERow) (gcol : String) (v : String) :
    ((hadVals df).map fun h =>
      (df.filter fun r => decide (r.cat gcol = v ∧ r.hadClaim = h)).length).sum =
      (df.filter fun r => decide (r.cat gcol = v)).length := by
  have hsplit : ∀ h : ℤ,
      (df.filter fun r => decide (r.cat gcol = v ∧ r.hadClaim = h)) =
        ((df.filter fun r => decide (r.cat gcol = v)).filter fun r =>
          decide (r.hadClaim = h)) :=
    fun h => filter_decide_and (fun r => r.cat gcol = v) (fun r => r.hadClaim = h) df
  simp only [hsplit]
  apply sum_filter_lengths (fun r : ERow => r.hadClaim)
    (df.filter fun r => decide (r.cat gcol = v)) (hadVals df) (List.nodup_dedup _)
  intro x hx
  exact List.mem_dedup.mpr (List.mem_map_of_mem _ (List.mem_of_mem_filter hx))

/-- C8: for a categorical attribute with at least two distinct values,
every row of the frequency-test contingency table sums to the record
count of its group, and the grand total of the table equals the
dataset size. -/
theorem claim8_contingency_totals (cfn : List (String × List ℕ) → ℚ × ℚ × ℤ)
    (df : List ERow) (gcol : String)
    (htwo : 2 ≤ (uniqueKeys (df.map fun r => r.cat gcol)).length) :
    (∀ row ∈ (chi2_frequency_by_group cfn df gcol).table,
      row.2.sum = (df.filter fun r => decide (r.cat gcol = row.1)).length) ∧
    (((chi2_frequency_by_group cfn df gcol).table.map fun row => row.2.sum).sum =
      df.length) := by
  constructor
  · intro row hrow
    simp only [chi2_frequency_by_group, freqTable, List.mem_map] at hrow
    obtain ⟨v, _, hv⟩ := hrow
    rw [← hv]
    exact freq_row_sum df gcol v
  · have htab : (chi2_frequency_by_group cfn df gcol).table = freqTable df gcol := rfl
    rw [htab]
    simp only [freqTable, List.map_map, Function.comp_def]
    have hrw : ∀ v : String,
        ((hadVals df).map fun h =>
          (df.filter fun r => decide (r.cat gcol = v ∧ r.hadClaim = h)).length).sum =
          (df.filter fun r => decide (r.cat gcol = v)).length :=
      freq_row_sum df gcol
    simp only [hrw]
    apply sum_filter_lengths (fun r : ERow => r.cat gcol) df
      (uniqueKeys (df.map fun r => r.cat gcol)) (List.nodup_dedup _)
    intro x hx
    exact List.mem_dedup.mpr (List.mem_map_of_mem _ hx)

/-- C8 witness: the four-record scenario has two provinces and the
totals law holds on its frequency table. -/
theorem claim8_witness :
    2 ≤ (uniqueKeys (dfScenario4.map fun r => r.cat "Province")).length ∧
    ((∀ row ∈ (chi2_frequency_by_group cfnConst dfScenario4 "Province").table,
      row.2.sum =
        (dfScenario4.filter fun r => decide (r.cat "Province" = row.1)).length) ∧
    (((chi2_frequency_by_group cfnConst dfScenario4 "Province").table.map
        fun row => row.2.sum).sum = dfScenario4.length)) :=
  ⟨by decide, claim8_contingency_totals cfnConst dfScenario4 "Province" (by decide)⟩

/-- Summing the 0/1 claim indicator counts the records with a positive
claims amount. -/
theorem sum_had_eq_countP (l : List ERow)
    (hl : ∀ x ∈ l, x.hadClaim = if 0 < x.totalClaims then 1 else 0) :
    (l.map fun r => r.hadClaim).sum =
      ((l.countP fun r => decide (0 < r.totalClaims) : ℕ) : ℤ) := by
  induction l with
  | nil => rfl
  | cons a l ih =>
    have ha := hl a (List.mem_cons_self a l)
    have ih2 := ih fun x hx => hl x (List.mem_cons_of_mem a hx)
    by_cases h : 0 < a.totalClaims
    · simp only [List.map_cons, List.sum_cons, ha, if_pos h, ih2,
        List.countP_cons, decide_eq_true h]
      push_cast
      ring
    · simp only [List.map_cons, List.sum_cons, ha, if_neg h, ih2,
        List.countP_cons, decide_eq_false h]
      push_cast
      ring

/-- Every row of a derived dataset carries the claim indicator of its
claims amount. -/
theorem derive_hadClaim (d : RawDF) :
    ∀ x ∈ derive d, x.hadClaim = if 0 < x.totalClaims then 1 else 0 := by
  intro x hx
  obtain ⟨r, _, hr⟩ := List.mem_map.mp hx
  rw [← hr]
  rfl

/-- C7: on a derived dataset, for groups with non-zero totals, the
pooled z-test returns the success count and size of each group, rates
equal to successes over totals, the pooled proportion, the squared
standard error pooled*(1-pooled)*(1/nA+1/nB), the z statistic equal to
the rate difference over the square root of that quantity, and the
two-tailed p-value 2*(1 - ncdf of the absolute z); on the reference
scenario with 10 of 100 versus 20 of 100 successes the pooled
proportion is 0.15 and the z statistic is negative. -/
theorem claim7_ztest_formulas :
    (∀ (d : RawDF) (gcol a b : String),
      (ztest_proportions (derive d) gcol a b).a_total ≠ 0 →
      (ztest_proportions (derive d) gcol a b).b_total ≠ 0 →
      ((ztest_proportions (derive d) gcol a b).a_succ =
        ((((derive d).filter fun r => decide (r.cat gcol = a)).countP
          fun r => decide (0 < r.totalClaims) : ℕ) : ℤ) ∧
      (ztest_proportions (derive d) gcol a b).b_succ =
        ((((derive d).filter fun r => decide (r.cat gcol = b)).countP
          fun r => decide (0 < r.totalClaims) : ℕ) : ℤ) ∧
      (ztest_proportions (derive d) gcol a b).a_total =
        ((((derive d).filter fun r => decide (r.cat gcol = a)).length : ℕ) : ℤ) ∧
      (ztest_proportions (derive d) gcol a b).b_total =
        ((((derive d).filter fun r => decide (r.cat gcol = b)).length : ℕ) : ℤ) ∧
      (ztest_proportions (derive d) gcol a b).rate_A =
        ((ztest_proportions (derive d) gcol a b).a_succ : ℚ) /
          ((ztest_proportions (derive d) gcol a b).a_total : ℚ) ∧
      (ztest_proportions (derive d) gcol a b).rate_B =
        ((ztest_proportions (derive d) gcol a b).b_succ : ℚ) /
          ((ztest_proportions (derive d) gcol a b).b_total : ℚ) ∧
      (ztest_proportions (derive d) gcol a b).p_pool =
        (((ztest_proportions (derive d) gcol a b).a_succ +
            (ztest_proportions (derive d) gcol a b).b_succ : ℤ) : ℚ) /
          (((ztest_proportions (derive d) gcol a b).a_total +
            (ztest_proportions (derive d) gcol a b).b_total : ℤ) : ℚ) ∧
      (ztest_proportions (derive d) gcol a b).se_sq =
        (ztest_proportions (derive d) gcol a b).p_pool *
          (1 - (ztest_proportions (derive d) gcol a b).p_pool) *
          (1 / ((ztest_proportions (derive d) gcol a b).a_total : ℚ) +
            1 / ((ztest_proportions (derive d) gcol a b).b_total : ℚ)) ∧
      z_score (ztest_proportions (derive d) gcol a b) =
        (((ztest_proportions (derive d) gcol a b).rate_A -
            (ztest_proportions (derive d) gcol a b).rate_B : ℚ) : ℝ) /
          Real.sqrt (((ztest_proportions (derive d) gcol a b).se_sq : ℚ) : ℝ) ∧
      ∀ ncdf : ℝ → ℝ, z_pvalue ncdf (ztest_proportions (derive d) gcol a b) =
        2 * (1 - ncdf |z_score (ztest_proportions (derive d) gcol a b)|))) ∧
    (ztest_proportions (derive zScenario) "Province" "A" "B").p_pool = 3 / 20 ∧
    z_score (ztest_proportions (derive zScenario) "Province" "A" "B") < 0 := by
  have hsa : (ztest_proportions (derive zScenario) "Province" "A" "B").a_succ
      = 10 := by decide
  have hta : (ztest_proportions (derive zScenario) "Province" "A" "B").a_total
      = 100 := by decide
  have hsb : (ztest_proportions (derive zScenario) "Province" "A" "B").b_succ
      = 20 := by decide
  have htb : (ztest_proportions (derive zScenario) "Province" "A" "B").b_total
      = 100 := by decide
  have hpool : (ztest_proportions (derive zScenario) "Province" "A" "B").p_pool
      = 3 / 20 := by
    have hdef : (ztest_proportions (derive zScenario) "Province" "A" "B").p_pool =
        (((ztest_proportions (derive zScenario) "Province" "A" "B").a_succ +
            (ztest_proportions (derive zScenario) "Province" "A" "B").b_succ : ℤ) : ℚ) /
          (((ztest_proportions (derive zScenario) "Province" "A" "B").a_total +
            (ztest_proportions (derive zScenario) "Province" "A" "B").b_total : ℤ) : ℚ) := rfl
    rw [hdef, hsa, hsb, hta, htb]
    norm_num
  refine ⟨?_, hpool, ?_⟩
  · intro d gcol a b _ _
    refine ⟨?_, ?_, rfl, rfl, rfl, rfl, rfl, rfl, rfl, fun ncdf => rfl⟩
    · exact sum_had_eq_countP _ fun x hx =>
        derive_hadClaim d x (List.mem_of_mem_filter hx)
    · exact sum_had_eq_countP _ fun x hx =>
        derive_hadClaim d x (List.mem_of_mem_filter hx)
  · have h1 : (ztest_proportions (derive zScenario) "Province" "A" "B").rate_A
        = 1 / 10 := by
      have hdef : (ztest_proportions (derive zScenario) "Province" "A" "B").rate_A =
          ((ztest_proportions (derive zScenario) "Province" "A" "B").a_succ : ℚ) /
            ((ztest_proportions (derive zScenario) "Province" "A" "B").a_total : ℚ) := rfl
      rw [hdef, hsa, hta]
      norm_num
    have h2 : (ztest_proportions (derive zScenario) "Province" "A" "B").rate_B
        = 1 / 5 := by
      have hdef : (ztest_proportions (derive zScenario) "Province" "A" "B").rate_B =
          ((ztest_proportions (derive zScenario) "Province" "A" "B").b_succ : ℚ) /
            ((ztest_proportions (derive zScenario) "Province" "A" "B").b_total : ℚ) := rfl
      rw [hdef, hsb, htb]
      norm_num
    have h3 : (ztest_proportions (derive zScenario) "Province" "A" "B").se_sq
        = 51 / 20000 := by
      have hdef : (ztest_proportions (derive zScenario) "Province" "A" "B").se_sq =
          (ztest_proportions (derive zScenario) "Province" "A" "B").p_pool *
            (1 - (ztest_proportions (derive zScenario) "Province" "A" "B").p_pool) *
            (1 / ((ztest_proportions (derive zScenario) "Province" "A" "B").a_total : ℚ) +
              1 / ((ztest_proportions (derive zScenario) "Province" "A" "B").b_total : ℚ)) := rfl
      rw [hdef, hpool, hta, htb]
      norm_num
    simp only [z_score, h1, h2, h3]
    apply div_neg_of_neg_of_pos
    · push_cast
      norm_num
    · apply Real.sqrt_pos.mpr
      push_cast
      norm_num

/-- C7 witness: the general formulas applied to the reference
scenario, whose totals are both 100. -/
theorem claim7_witness :
    (ztest_proportions (derive zScenario) "Province" "A" "B").a_succ =
      ((((derive zScenario).filter fun r =>
        decide (r.cat "Province" = "A")).countP
          fun r => decide (0 < r.totalClaims) : ℕ) : ℤ) ∧
    (ztest_proportions (derive zScenario) "Province" "A" "B").rate_A =
      ((ztest_proportions (derive zScenario) "Province" "A" "B").a_succ : ℚ) /
        ((ztest_proportions (derive zScenario) "Province" "A" "B").a_total : ℚ) :=
  ⟨(claim7_ztest_formulas.1 zScenario "Province" "A" "B" (by decide) (by decide)).1,
   (claim7_ztest_formulas.1 zScenario "Province" "A" "B"
     (by decide) (by decide)).2.2.2.2.1⟩

/-- C5: for covariate c among the categorical covariates and group
selections that are each non-empty, the balance report carries the
chi-square statistic and p-value computed on the contingency table
cross-tabulating the covariate restricted to group A against the
covariate restricted to group B, and omits the covariate exactly when
that table is empty. -/
theorem claim5_balance_categorical (tf : List ℚ → List ℚ → Option ℚ × Option ℚ)
    (chifn : List ((String × String) × ℕ) → ℚ × ℚ)
    (df : List ERow) (gcol a b : String)
    (covariatesNum covariatesCat : List String) (c : String)
    (ha : groupIdx df gcol a ≠ []) (hb : groupIdx df gcol b ≠ [])
    (hc : c ∈ covariatesCat) :
    ((c, mkCat (chifn (crosstab2 (catColumn (groupIdx df gcol a) c)
        (catColumn (groupIdx df gcol b) c)))) ∈
        (balance_check tf chifn df gcol a b covariatesNum covariatesCat).categorical) ↔
      crosstab2 (catColumn (groupIdx df gcol a) c)
        (catColumn (groupIdx df gcol b) c) ≠ [] := by
  simp only [balance_check]
  constructor
  · intro hmem
    obtain ⟨x, hx, he⟩ := List.mem_filterMap.mp hmem
    by_cases h : crosstab2 (catColumn (groupIdx df gcol a) x)
        (catColumn (groupIdx df gcol b) x) = []
    · rw [if_pos h] at he
      cases he
    · rw [if_neg h] at he
      have hxc : x = c := (Prod.mk.injEq _ _ _ _).mp (Option.some.inj he) |>.1
      rw [hxc] at h
      exact h
  · intro hne
    apply List.mem_filterMap.mpr
    refine ⟨c, hc, ?_⟩
    rw [if_neg hne]
    rfl

/-- C5 witness: comparing the selection of label M with itself makes
the two selections share their indices, so the aligned table is
non-empty and the covariate is reported. -/
theorem claim5_witness :
    (("CoverCategory",
      mkCat (chifnConst (crosstab2
        (catColumn (groupIdx dfBal "Gender" "M") "CoverCategory")
        (catColumn (groupIdx dfBal "Gender" "M") "CoverCategory")))) ∈
        (balance_check tfConst chifnConst dfBal "Gender" "M" "M" []
          ["CoverCategory"]).categorical) ↔
      crosstab2 (catColumn (groupIdx dfBal "Gender" "M") "CoverCategory")
        (catColumn (groupIdx dfBal "Gender" "M") "CoverCategory") ≠ [] :=
  claim5_balance_categorical tfConst chifnConst dfBal "Gender" "M" "M" []
    ["CoverCategory"] "CoverCategory" (by decide) (by decide) (by decide)

